import Mathlib

/-!
Verification of the streaming fraud-detection dashboard core: the message
reconciler and aggregate statistics of the dashboard component, the
reconnection state machine of its socket handling, and the display-side
fraud predicates and anomaly detector of the chart/table/alert components.

Numeric JSON fields are modelled as rationals; fields that upstream
messages may omit are `Option`-valued, with `none` standing for an
absent/undefined field.
-/

/-- A per-model inference result: three binary flags (0/1), each possibly
absent.  Mirrors `Prediction = { logistic?: 0|1, random_forest?: 0|1,
xgboost?: 0|1 }`. -/
structure Prediction where
  logistic : Option Int
  random_forest : Option Int
  xgboost : Option Int
deriving DecidableEq, Repr

/-- One financial event.  Mirrors `Transaction = { transaction_id?: string,
Time?: number, Amount?: number, Class?: 0|1, V1?: number, ... }`. -/
structure Transaction where
  transaction_id : Option String
  Time : Option ℚ
  Amount : Option ℚ
  Class : Option Int
  V1 : Option ℚ
deriving DecidableEq, Repr

/-- A raw inbound socket message after top-level JSON decoding: any of the
top-level fields `message`, `predictions`, `prediction`, `transaction` may
be present or absent. -/
structure Msg where
  message : Option String
  predictions : Option Prediction
  prediction : Option Prediction
  transaction : Option Transaction
deriving DecidableEq, Repr

/-- The dashboard's client-side state: the two parallel event logs and the
aggregate statistics `{ total, flagged, recentVolume }`. -/
structure DashState where
  predictions : List Prediction
  transactions : List Transaction
  total : Nat
  flagged : Nat
  recentVolume : ℚ
deriving DecidableEq, Repr

/-- Session-start state: empty logs, all statistics zero. -/
def initState : DashState :=
  { predictions := [], transactions := [], total := 0, flagged := 0,
    recentVolume := 0 }

/-- `isFlaggedAsFraud` from the dashboard component:
`if (!prediction) return false; return prediction.xgboost === 1 ||
prediction.random_forest === 1 || prediction.logistic === 1;`.
The argument is `Option`-valued because the caller may pass a missing
prediction (`predictions[index]` out of range), which is falsy. -/
def isFlaggedAsFraud (prediction : Option Prediction) : Bool :=
  match prediction with
  | none => false
  | some p => p.xgboost == some 1 || p.random_forest == some 1 ||
      p.logistic == some 1

/-- JavaScript truthiness of the top-level `message` field
(`if (data.message) { ... return; }`): a present, non-empty string is
truthy; an absent field or the empty string is falsy. -/
def messageTruthy (m : Msg) : Bool :=
  match m.message with
  | some s => s != ""
  | none => false

/-- Shape-1 weighted-volume contribution:
`data.transaction.Amount * 10 || 0` — ten times the amount, or 0 when the
amount is absent (`undefined * 10` is `NaN`, which is falsy). -/
def amountTimes10 (t : Transaction) : ℚ :=
  match t.Amount with
  | some a => a * 10
  | none => 0

/-- Shape-2 weighted-volume contribution: `data.transaction.Amount || 0`. -/
def amountOrZero (t : Transaction) : ℚ :=
  match t.Amount with
  | some a => a
  | none => 0

/-- Appending one (prediction, transaction) pair together with its
statistics update (`setPredictions`, `setTransactions`, `setStats` on one
accepted record): `total += 1`, `flagged += 1` iff `isFlaggedAsFraud`, and
`recentVolume += contrib` where `contrib` is the shape-dependent
weighted-volume contribution. -/
def recordPair (s : DashState) (pr : Prediction) (tx : Transaction)
    (contrib : ℚ) : DashState :=
  { predictions := s.predictions ++ [pr]
    transactions := s.transactions ++ [tx]
    total := s.total + 1
    flagged := if isFlaggedAsFraud (some pr) then s.flagged + 1 else s.flagged
    recentVolume := s.recentVolume + contrib }

/-- The `socket.onmessage` handler's effect on the dashboard state for one
delivered message.  Dispatch order follows the source: a truthy `message`
field returns early with no state change; otherwise shape 1
(`data.predictions && data.transaction`) appends one pair with the ×10
contribution; otherwise shape 2 (`data.prediction`) always appends the
prediction and, only when `data.transaction` is also present, appends the
transaction and updates the statistics with the unscaled contribution; any
other message changes nothing. -/
def step (s : DashState) (m : Msg) : DashState :=
  if messageTruthy m then s
  else
    match m.predictions, m.transaction with
    | some pr, some tx => recordPair s pr tx (amountTimes10 tx)
    | _, _ =>
      match m.prediction with
      | some pr =>
        match m.transaction with
        | some tx => recordPair s pr tx (amountOrZero tx)
        | none => { s with predictions := s.predictions ++ [pr] }
      | none => s

/-- Folding a whole sequence of delivered messages from session start. -/
def run (msgs : List Msg) : DashState :=
  List.foldl step initState msgs

/-- C1: for every present Prediction the rule is the OR of the three
model-flag comparisons with 1, and an absent Prediction is classified
non-fraud. -/
theorem isFlaggedAsFraud_spec :
    (∀ p : Prediction,
      isFlaggedAsFraud (some p) =
        (p.logistic == some 1 || p.random_forest == some 1 ||
          p.xgboost == some 1)) ∧
    isFlaggedAsFraud none = false := by
  constructor
  · intro p
    simp only [isFlaggedAsFraud]
    cases hl : p.logistic == some 1 <;>
      cases hr : p.random_forest == some 1 <;>
        cases hx : p.xgboost == some 1 <;> simp [hl, hr, hx]
  · rfl

/-- Concrete all-zero prediction, used by the spec's test scenarios. -/
def predZero : Prediction := ⟨some 0, some 0, some 0⟩

/-- Concrete prediction where only the xgboost model votes fraud. -/
def predXgb : Prediction := ⟨some 0, some 0, some 1⟩

/-- Concrete transaction with amount 50 and no other fields. -/
def tx50 : Transaction := ⟨none, none, some 50, none, none⟩

/-- Concrete transaction with amount 200 and no other fields. -/
def tx200 : Transaction := ⟨none, none, some 200, none, none⟩

/-- The spec's shape-1 scenario message. -/
def msgShape1 : Msg := ⟨none, some predXgb, none, some tx50⟩

/-- The spec's shape-2 scenario message. -/
def msgShape2 : Msg := ⟨none, none, some predZero, some tx200⟩

/-- A shape-2 message carrying a bare prediction and no transaction. -/
def msgBarePrediction : Msg := ⟨none, none, some predZero, none⟩

/-- The status-only greeting message `{ "message": "connected" }`. -/
def msgStatus : Msg := ⟨some "connected", none, none, none⟩

/-- C2: an accepted shape-1 message (`predictions` and `transaction` both
present, `message` field not truthy) appends exactly one entry to each
log, increments `total` by 1, increments `flagged` by 1 exactly when the
classification rule flags the new prediction, and adds `Amount * 10` to
`recentVolume` (0 when the amount is absent). -/
theorem shape1_step (s : DashState) (m : Msg) (pr : Prediction)
    (tx : Transaction) (hm : messageTruthy m = false)
    (hp : m.predictions = some pr) (ht : m.transaction = some tx) :
    (step s m).predictions = s.predictions ++ [pr] ∧
    (step s m).transactions = s.transactions ++ [tx] ∧
    (step s m).total = s.total + 1 ∧
    (step s m).flagged =
      (if isFlaggedAsFraud (some pr) = true then s.flagged + 1
       else s.flagged) ∧
    (step s m).recentVolume = s.recentVolume +
      (match tx.Amount with | some a => a * 10 | none => 0) := by
  by_cases h : isFlaggedAsFraud (some pr) = true <;>
    simp [step, hm, hp, ht, recordPair, amountTimes10, h]

/-- C2 witness: the spec scenario — one shape-1 message with an
only-xgboost-votes prediction and amount 50, delivered to the empty
session state. -/
theorem shape1_step_witness :
    (step initState msgShape1).predictions =
      initState.predictions ++ [predXgb] ∧
    (step initState msgShape1).transactions =
      initState.transactions ++ [tx50] ∧
    (step initState msgShape1).total = initState.total + 1 ∧
    (step initState msgShape1).flagged =
      (if isFlaggedAsFraud (some predXgb) = true then initState.flagged + 1
       else initState.flagged) ∧
    (step initState msgShape1).recentVolume = initState.recentVolume +
      (match tx50.Amount with | some a => a * 10 | none => 0) :=
  shape1_step initState msgShape1 predXgb tx50 rfl rfl rfl

/-- C3: a shape-2 message (`predictions` absent, `prediction` present,
`message` not truthy) always appends the prediction; when a transaction is
present it also appends the transaction and updates the statistics with
the unscaled amount (0 when absent); when the transaction is absent the
transaction log and all three statistics are unchanged. -/
theorem shape2_step (s : DashState) (m : Msg) (pr : Prediction)
    (hm : messageTruthy m = false) (hps : m.predictions = none)
    (hp : m.prediction = some pr) :
    (step s m).predictions = s.predictions ++ [pr] ∧
    (∀ tx : Transaction, m.transaction = some tx →
      (step s m).transactions = s.transactions ++ [tx] ∧
      (step s m).total = s.total + 1 ∧
      (step s m).flagged =
        (if isFlaggedAsFraud (some pr) = true then s.flagged + 1
         else s.flagged) ∧
      (step s m).recentVolume = s.recentVolume +
        (match tx.Amount with | some a => a | none => 0)) ∧
    (m.transaction = none →
      (step s m).transactions = s.transactions ∧
      (step s m).total = s.total ∧
      (step s m).flagged = s.flagged ∧
      (step s m).recentVolume = s.recentVolume) := by
  cases htx : m.transaction with
  | none =>
    refine ⟨?_, fun tx h => by simp [htx] at h, fun _ => ?_⟩ <;>
      simp [step, hm, hps, htx, hp]
  | some tx0 =>
    refine ⟨?_, fun tx h => ?_, fun h => by simp [htx] at h⟩
    · simp [step, hm, hps, htx, hp, recordPair]
    · obtain rfl : tx0 = tx := by simpa using h
      by_cases hf : isFlaggedAsFraud (some pr) = true <;>
        simp [step, hm, hps, htx, hp, recordPair, amountOrZero, hf]

/-- C3 witness: the spec scenario message — an all-zero prediction with a
transaction of amount 200 — delivered to the empty session state. -/
theorem shape2_step_witness :
    (step initState msgShape2).predictions =
      initState.predictions ++ [predZero] ∧
    (∀ tx : Transaction, msgShape2.transaction = some tx →
      (step initState msgShape2).transactions =
        initState.transactions ++ [tx] ∧
      (step initState msgShape2).total = initState.total + 1 ∧
      (step initState msgShape2).flagged =
        (if isFlaggedAsFraud (some predZero) = true then
          initState.flagged + 1
         else initState.flagged) ∧
      (step initState msgShape2).recentVolume = initState.recentVolume +
        (match tx.Amount with | some a => a | none => 0)) ∧
    (msgShape2.transaction = none →
      (step initState msgShape2).transactions = initState.transactions ∧
      (step initState msgShape2).total = initState.total ∧
      (step initState msgShape2).flagged = initState.flagged ∧
      (step initState msgShape2).recentVolume =
        initState.recentVolume) :=
  shape2_step initState msgShape2 predZero rfl rfl rfl

/-- C8: a message matching neither shape 1 (`predictions` and
`transaction` both present) nor shape 2 (`prediction` present) — a pure
status message included — leaves the logs and all three statistics
unchanged. -/
theorem unrecognized_message_dropped (s : DashState) (m : Msg)
    (h1 : ¬(m.predictions.isSome = true ∧ m.transaction.isSome = true))
    (h2 : m.prediction = none) : step s m = s := by
  by_cases hm : messageTruthy m = true
  · simp [step, hm]
  · cases hps : m.predictions with
    | some pr =>
      cases htx : m.transaction with
      | some tx => exact absurd ⟨by simp [hps], by simp [htx]⟩ h1
      | none => simp [step, hm, hps, htx, h2]
    | none => simp [step, hm, hps, h2]

/-- C8 witness: the pure status message `{ "message": "connected" }`
changes nothing. -/
theorem unrecognized_message_dropped_witness :
    step initState msgStatus = initState :=
  unrecognized_message_dropped initState msgStatus (by simp [msgStatus]) rfl

/-- A status-and-payload message: truthy `message` plus a full shape-1
payload. -/
def msgStatusWithPayload : Msg := ⟨some "connected", some predXgb, none, some tx50⟩

/-- A message whose `message` field is the empty string, plus a shape-1
payload. -/
def msgEmptyStatus : Msg := ⟨some "", some predXgb, none, some tx50⟩

/-- C10: a truthy `message` field short-circuits dispatch — the state is
unchanged even when a valid payload rides along — while an empty-string
`message` field is falsy and the message is handled exactly as the same
message without the field. -/
theorem message_field_precedence (s : DashState) (m : Msg) :
    (messageTruthy m = true → step s m = s) ∧
    (m.message = some "" →
      step s m = step s { m with message := none }) := by
  refine ⟨fun h => by simp [step, h], fun h => ?_⟩
  obtain ⟨mm, mps, mp, mt⟩ := m
  obtain rfl : mm = some "" := h
  simp [step, messageTruthy]

/-- C10 witness: the greeting message with a shape-1 payload attached
changes nothing, and the empty-string variant dispatches as if the field
were absent. -/
theorem message_field_precedence_witness :
    step initState msgStatusWithPayload = initState ∧
    step initState msgEmptyStatus =
      step initState { msgEmptyStatus with message := none } :=
  ⟨(message_field_precedence initState msgStatusWithPayload).1 rfl,
   (message_field_precedence initState msgEmptyStatus).2 rfl⟩

/-- Case analysis on one `onmessage` dispatch: the state is unchanged, or
only the prediction log grows by one, or one full pair is recorded. -/
theorem step_cases (s : DashState) (m : Msg) :
    step s m = s ∨
    (∃ pr, step s m = { s with predictions := s.predictions ++ [pr] }) ∨
    (∃ pr tx c, step s m = recordPair s pr tx c) := by
  obtain ⟨mm, mps, mp, mt⟩ := m
  by_cases hm : messageTruthy ⟨mm, mps, mp, mt⟩ = true
  · left; simp [step, hm]
  · have hm' : messageTruthy ⟨mm, mps, mp, mt⟩ = false := by
      simpa using hm
    cases mps with
    | some pr =>
      cases mt with
      | some tx =>
        right; right
        exact ⟨pr, tx, amountTimes10 tx, by simp [step, hm']⟩
      | none =>
        cases mp with
        | some pr' => right; left; exact ⟨pr', by simp [step, hm']⟩
        | none => left; simp [step, hm']
    | none =>
      cases mp with
      | some pr' =>
        cases mt with
        | some tx =>
          right; right
          exact ⟨pr', tx, amountOrZero tx, by simp [step, hm']⟩
        | none => right; left; exact ⟨pr', by simp [step, hm']⟩
      | none => left; simp [step, hm']

/-- One dispatch preserves "transaction log no longer than prediction
log". -/
theorem step_preserves_len_le (s : DashState) (m : Msg)
    (h : s.transactions.length ≤ s.predictions.length) :
    (step s m).transactions.length ≤ (step s m).predictions.length := by
  rcases step_cases s m with h1 | ⟨pr, h1⟩ | ⟨pr, tx, c, h1⟩ <;> rw [h1]
  · exact h
  · simp only [List.length_append, List.length_cons, List.length_nil]
    omega
  · simp only [recordPair, List.length_append, List.length_cons,
      List.length_nil]
    omega

/-- Folding any message list preserves the log-length inequality. -/
theorem foldl_preserves_len_le (msgs : List Msg) :
    ∀ s : DashState, s.transactions.length ≤ s.predictions.length →
      (msgs.foldl step s).transactions.length ≤
        (msgs.foldl step s).predictions.length := by
  induction msgs with
  | nil => exact fun s h => h
  | cons m ms ih =>
    exact fun s h => ih (step s m) (step_preserves_len_le s m h)

/-- C5 counterexample: a bare shape-2 prediction (no transaction) leaves
the two logs with different lengths, refuting the equal-length lockstep
invariant. -/
theorem lockstep_counterexample :
    (run [msgBarePrediction]).predictions.length ≠
      (run [msgBarePrediction]).transactions.length := by
  simp [run, step, msgBarePrediction, messageTruthy, initState]

/-- C5 amended: shape-1 messages (and shape-2 messages carrying a
transaction) append to both logs, but a transaction-less shape-2 message
appends only to the prediction log, so across every sequence of delivered
messages the transaction log is never longer than the prediction log
(equality is not guaranteed). -/
theorem transactions_len_le_predictions_len (msgs : List Msg) :
    (run msgs).transactions.length ≤ (run msgs).predictions.length :=
  foldl_preserves_len_le msgs initState (by simp [initState])

/-- One dispatch never decreases `total`. -/
theorem step_total_mono (s : DashState) (m : Msg) :
    s.total ≤ (step s m).total := by
  rcases step_cases s m with h1 | ⟨pr, h1⟩ | ⟨pr, tx, c, h1⟩ <;> rw [h1]
  exact Nat.le_succ _

/-- One dispatch never decreases `flagged`. -/
theorem step_flagged_mono (s : DashState) (m : Msg) :
    s.flagged ≤ (step s m).flagged := by
  rcases step_cases s m with h1 | ⟨pr, h1⟩ | ⟨pr, tx, c, h1⟩ <;> rw [h1]
  simp only [recordPair]
  split
  · exact Nat.le_succ _
  · exact Nat.le_refl _

/-- One dispatch preserves `flagged ≤ total`. -/
theorem step_preserves_flagged_le_total (s : DashState) (m : Msg)
    (h : s.flagged ≤ s.total) : (step s m).flagged ≤ (step s m).total := by
  rcases step_cases s m with h1 | ⟨pr, h1⟩ | ⟨pr, tx, c, h1⟩ <;> rw [h1]
  · exact h
  · exact h
  · simp only [recordPair]
    split <;> omega

/-- `flagged` increases in one dispatch only when `total` does. -/
theorem step_flagged_lt_imp_total_lt (s : DashState) (m : Msg)
    (h : s.flagged < (step s m).flagged) : s.total < (step s m).total := by
  rcases step_cases s m with h1 | ⟨pr, h1⟩ | ⟨pr, tx, c, h1⟩ <;>
    rw [h1] at h ⊢
  · exact absurd h (Nat.lt_irrefl _)
  · exact absurd h (Nat.lt_irrefl _)
  · simp only [recordPair]
    exact Nat.lt_succ_of_le (Nat.le_refl _)

/-- If every amount present in the message is non-negative, one dispatch
never decreases `recentVolume`. -/
theorem step_recentVolume_mono (s : DashState) (m : Msg)
    (hA : ∀ tx : Transaction, m.transaction = some tx →
      ∀ a : ℚ, tx.Amount = some a → 0 ≤ a) :
    s.recentVolume ≤ (step s m).recentVolume := by
  obtain ⟨mm, mps, mp, mt⟩ := m
  by_cases hm : messageTruthy ⟨mm, mps, mp, mt⟩ = true
  · simp [step, hm]
  · have hm' : messageTruthy ⟨mm, mps, mp, mt⟩ = false := by simpa using hm
    have hcontrib : ∀ tx : Transaction, mt = some tx →
        0 ≤ amountTimes10 tx ∧ 0 ≤ amountOrZero tx := by
      intro tx htx
      cases ha : tx.Amount with
      | none => simp [amountTimes10, amountOrZero, ha]
      | some a =>
        have h0 : (0 : ℚ) ≤ a := hA tx htx a ha
        constructor
        · simp only [amountTimes10, ha]
          positivity
        · simpa [amountOrZero, ha] using h0
    cases mps with
    | some pr =>
      cases mt with
      | some tx =>
        have := (hcontrib tx rfl).1
        simp only [step, hm', Bool.false_eq_true, if_false, recordPair]
        linarith
      | none =>
        cases mp with
        | some pr' => simp [step, hm']
        | none => simp [step, hm']
    | none =>
      cases mp with
      | some pr' =>
        cases mt with
        | some tx =>
          have := (hcontrib tx rfl).2
          simp only [step, hm', Bool.false_eq_true, if_false, recordPair]
          linarith
        | none => simp [step, hm']
      | none => simp [step, hm']

/-- `flagged ≤ total` after any run from session start. -/
theorem run_flagged_le_total (msgs : List Msg) :
    (run msgs).flagged ≤ (run msgs).total := by
  suffices h : ∀ s : DashState, s.flagged ≤ s.total →
      (msgs.foldl step s).flagged ≤ (msgs.foldl step s).total from
    h initState (by simp [initState])
  induction msgs with
  | nil => exact fun s h => h
  | cons m ms ih =>
    exact fun s h => ih (step s m) (step_preserves_flagged_le_total s m h)

/-- C9: across every delivered message, `total` and `flagged` never
decrease, `flagged ≤ total` holds after the message, `flagged` increases
only when `total` increases, and `recentVolume` does not decrease when
every `Amount` present in the message is non-negative. -/
theorem stats_monotone (msgs : List Msg) (m : Msg) :
    (run msgs).total ≤ (run (msgs ++ [m])).total ∧
    (run msgs).flagged ≤ (run (msgs ++ [m])).flagged ∧
    (run (msgs ++ [m])).flagged ≤ (run (msgs ++ [m])).total ∧
    ((run msgs).flagged < (run (msgs ++ [m])).flagged →
      (run msgs).total < (run (msgs ++ [m])).total) ∧
    ((∀ tx : Transaction, m.transaction = some tx →
        ∀ a : ℚ, tx.Amount = some a → 0 ≤ a) →
      (run msgs).recentVolume ≤ (run (msgs ++ [m])).recentVolume) := by
  have hrun : run (msgs ++ [m]) = step (run msgs) m := by
    simp [run, List.foldl_append]
  rw [hrun]
  exact ⟨step_total_mono _ m, step_flagged_mono _ m,
    step_preserves_flagged_le_total _ m (run_flagged_le_total msgs),
    step_flagged_lt_imp_total_lt _ m,
    fun hA => step_recentVolume_mono _ m hA⟩

/-- C9 witness: the monotonicity facts instantiated on the run consisting
of the two spec scenario messages. -/
theorem stats_monotone_witness :
    (run [msgShape1]).total ≤ (run ([msgShape1] ++ [msgShape2])).total ∧
    (run [msgShape1]).flagged ≤
      (run ([msgShape1] ++ [msgShape2])).flagged ∧
    (run ([msgShape1] ++ [msgShape2])).flagged ≤
      (run ([msgShape1] ++ [msgShape2])).total ∧
    ((run [msgShape1]).flagged < (run ([msgShape1] ++ [msgShape2])).flagged →
      (run [msgShape1]).total < (run ([msgShape1] ++ [msgShape2])).total) ∧
    ((∀ tx : Transaction, msgShape2.transaction = some tx →
        ∀ a : ℚ, tx.Amount = some a → 0 ≤ a) →
      (run [msgShape1]).recentVolume ≤
        (run ([msgShape1] ++ [msgShape2])).recentVolume) :=
  stats_monotone [msgShape1] msgShape2

/-- Connection status displayed by the dashboard:
`'connecting' | 'connected' | 'disconnected'`. -/
inductive ConnStatus
  | connecting
  | connected
  | disconnected
deriving DecidableEq, Repr

/-- Stream-connector state: the visible status, the `reconnectAttempts`
counter of the effect closure, and the delay (in milliseconds) of a
pending `setTimeout` reconnect timer, if one is scheduled. -/
structure ConnState where
  status : ConnStatus
  reconnectAttempts : Nat
  pendingTimerMs : Option Nat
deriving DecidableEq, Repr

/-- `const maxReconnectAttempts = 5`. -/
def maxReconnectAttempts : Nat := 5

/-- State after the initial `connectToServer()` call:
`setConnectionStatus('connecting')` with a fresh counter and no timer. -/
def connInit : ConnState := ⟨ConnStatus.connecting, 0, none⟩

/-- The socket/timer callbacks that can fire on the connector. -/
inductive ConnEvent
  | opened
  | errored
  | closed
  | timerFired
deriving DecidableEq, Repr

/-- One connector callback:
`onopen` sets `connected` and resets the counter;
`onerror` sets `disconnected`;
`onclose` sets `disconnected` and, only while the counter is below the
ceiling, schedules a reconnect after `Math.pow(2, reconnectAttempts) *
1000` milliseconds;
the timer firing increments the counter and re-enters
`connectToServer()` (status `connecting`), consuming the timer.  A
`timerFired` event with no pending timer is a no-op. -/
def connStep (s : ConnState) (e : ConnEvent) : ConnState :=
  match e with
  | ConnEvent.opened =>
      { s with status := ConnStatus.connected, reconnectAttempts := 0 }
  | ConnEvent.errored => { s with status := ConnStatus.disconnected }
  | ConnEvent.closed =>
      if s.reconnectAttempts < maxReconnectAttempts then
        { s with status := ConnStatus.disconnected,
                 pendingTimerMs := some (2 ^ s.reconnectAttempts * 1000) }
      else
        { s with status := ConnStatus.disconnected, pendingTimerMs := none }
  | ConnEvent.timerFired =>
      match s.pendingTimerMs with
      | some _ =>
          { status := ConnStatus.connecting,
            reconnectAttempts := s.reconnectAttempts + 1,
            pendingTimerMs := none }
      | none => s

/-- Running the connector from session start over a callback sequence. -/
def connRun (evs : List ConnEvent) : ConnState :=
  evs.foldl connStep connInit

/-- `n` consecutive drop-and-retry rounds: each round is a close event
followed by its reconnect timer firing. -/
def consecutiveDrops : Nat → List ConnEvent
  | 0 => []
  | n + 1 => consecutiveDrops n ++ [ConnEvent.closed, ConnEvent.timerFired]

/-- The terminal configuration is absorbing for every event a dead socket
can still deliver (anything but a successful open): disconnected, no
pending timer, counter at the ceiling. -/
theorem connStep_terminal (s : ConnState) (e : ConnEvent)
    (he : e ≠ ConnEvent.opened)
    (h : s.status = ConnStatus.disconnected ∧ s.pendingTimerMs = none ∧
      maxReconnectAttempts ≤ s.reconnectAttempts) :
    (connStep s e).status = ConnStatus.disconnected ∧
    (connStep s e).pendingTimerMs = none ∧
    maxReconnectAttempts ≤ (connStep s e).reconnectAttempts := by
  obtain ⟨h1, h2, h3⟩ := h
  cases e with
  | opened => exact absurd rfl he
  | errored => exact ⟨rfl, h2, h3⟩
  | closed =>
    have hlt : ¬ s.reconnectAttempts < maxReconnectAttempts :=
      Nat.not_lt.mpr h3
    refine ⟨?_, ?_, ?_⟩ <;> simp [connStep, hlt, h3]
  | timerFired =>
    refine ⟨?_, ?_, ?_⟩ <;> simp [connStep, h1, h2, h3]

/-- The absorbing property extends over whole callback sequences. -/
theorem connFoldl_terminal (evs : List ConnEvent) :
    ∀ s : ConnState, (∀ e ∈ evs, e ≠ ConnEvent.opened) →
      (s.status = ConnStatus.disconnected ∧ s.pendingTimerMs = none ∧
        maxReconnectAttempts ≤ s.reconnectAttempts) →
      ((evs.foldl connStep s).status = ConnStatus.disconnected ∧
       (evs.foldl connStep s).pendingTimerMs = none ∧
       maxReconnectAttempts ≤ (evs.foldl connStep s).reconnectAttempts) := by
  induction evs with
  | nil => exact fun s _ h => h
  | cons e es ih =>
    intro s hes h
    exact ih (connStep s e)
      (fun e' he' => hes e' (List.mem_cons_of_mem e he'))
      (connStep_terminal s e (hes e (List.mem_cons_self e es)) h)

/-- C4: after the n-th consecutive drop (n = 1..5) the scheduled delay is
exactly `2^(n-1)` seconds; a firing timer increments the retry counter; a
successful open resets the counter to zero (and shows `connected`); and
once the 5th retry has also failed, the state is `disconnected` with no
timer, and stays that way with no reconnect ever scheduled under any
further sequence of non-open events. -/
theorem reconnect_protocol :
    (∀ n : Nat, 1 ≤ n → n ≤ 5 →
      (connRun (consecutiveDrops (n - 1) ++
        [ConnEvent.closed])).pendingTimerMs = some (2 ^ (n - 1) * 1000) ∧
      (connRun (consecutiveDrops (n - 1) ++ [ConnEvent.closed])).status =
        ConnStatus.disconnected) ∧
    (∀ s : ConnState, ∀ d : Nat, s.pendingTimerMs = some d →
      (connStep s ConnEvent.timerFired).reconnectAttempts =
        s.reconnectAttempts + 1) ∧
    (∀ s : ConnState,
      (connStep s ConnEvent.opened).reconnectAttempts = 0 ∧
      (connStep s ConnEvent.opened).status = ConnStatus.connected) ∧
    (∀ evs : List ConnEvent, (∀ e ∈ evs, e ≠ ConnEvent.opened) →
      (evs.foldl connStep
        (connRun (consecutiveDrops 5 ++ [ConnEvent.closed]))).status =
          ConnStatus.disconnected ∧
      (evs.foldl connStep
        (connRun (consecutiveDrops 5 ++ [ConnEvent.closed]))).pendingTimerMs =
          none) := by
  refine ⟨?_, ?_, ?_, ?_⟩
  · intro n h1 h5
    interval_cases n <;> exact ⟨rfl, rfl⟩
  · intro s d h
    simp only [connStep, h]
  · exact fun s => ⟨rfl, rfl⟩
  · intro evs hevs
    have h := connFoldl_terminal evs
      (connRun (consecutiveDrops 5 ++ [ConnEvent.closed])) hevs
      (by decide)
    exact ⟨h.1, h.2.1⟩

/-- C4 witness: the protocol facts instantiated — third drop schedules a
4-second timer, a concrete pending timer firing bumps the counter from 2
to 3, an open on a concrete state resets the counter, and a concrete
post-exhaustion event sequence stays disconnected. -/
theorem reconnect_protocol_witness :
    ((connRun (consecutiveDrops (3 - 1) ++
        [ConnEvent.closed])).pendingTimerMs = some (2 ^ (3 - 1) * 1000) ∧
      (connRun (consecutiveDrops (3 - 1) ++ [ConnEvent.closed])).status =
        ConnStatus.disconnected) ∧
    (connStep ⟨ConnStatus.disconnected, 2, some 4000⟩
        ConnEvent.timerFired).reconnectAttempts = 2 + 1 ∧
    ((connStep ⟨ConnStatus.disconnected, 2, some 4000⟩
        ConnEvent.opened).reconnectAttempts = 0 ∧
      (connStep ⟨ConnStatus.disconnected, 2, some 4000⟩
        ConnEvent.opened).status = ConnStatus.connected) ∧
    (([ConnEvent.closed, ConnEvent.timerFired,
        ConnEvent.errored].foldl connStep
        (connRun (consecutiveDrops 5 ++ [ConnEvent.closed]))).status =
          ConnStatus.disconnected ∧
      ([ConnEvent.closed, ConnEvent.timerFired,
        ConnEvent.errored].foldl connStep
        (connRun (consecutiveDrops 5 ++ [ConnEvent.closed]))).pendingTimerMs =
          none) :=
  ⟨reconnect_protocol.1 3 (by decide) (by decide),
   reconnect_protocol.2.1 ⟨ConnStatus.disconnected, 2, some 4000⟩ 4000 rfl,
   reconnect_protocol.2.2.1 ⟨ConnStatus.disconnected, 2, some 4000⟩,
   reconnect_protocol.2.2.2
     [ConnEvent.closed, ConnEvent.timerFired, ConnEvent.errored]
     (by decide)⟩

/-- `transaction.V1 !== undefined && transaction.V1 < -3`. -/
def hasNegativeV1 (t : Transaction) : Bool :=
  match t.V1 with
  | some v => decide (v < -3)
  | none => false

/-- `transaction.Amount !== undefined && transaction.Amount > 1000`. -/
def hasLargeAmount (t : Transaction) : Bool :=
  match t.Amount with
  | some a => decide (1000 < a)
  | none => false

/-- The per-model vote OR in the order the display components write it:
`prediction.logistic === 1 || prediction.random_forest === 1 ||
prediction.xgboost === 1`. -/
def modelVote (p : Prediction) : Bool :=
  p.logistic == some 1 || p.random_forest == some 1 || p.xgboost == some 1

/-- `isFraudulent` from the transaction-history table: the `Class === 1`
check runs first; then, if a prediction exists at this index
(`index < predictions.length`), its vote decides; otherwise the V1/amount
fallback decides. -/
def isFraudulent (predictions : List Prediction) (transaction : Transaction)
    (index : Nat) : Bool :=
  if transaction.Class == some 1 then true
  else
    match predictions[index]? with
    | some prediction => modelVote prediction
    | none => hasNegativeV1 transaction || hasLargeAmount transaction

/-- The filter callback of `fraudulentTransactions` in the alerts panel:
method 1 checks `Class === 1`; method 2 returns true when a prediction
exists at the index and votes fraud (but falls through when the vote is
negative); method 3 is the V1/amount fallback. -/
def fraudAlertCheck (predictions : List Prediction)
    (transaction : Transaction) (index : Nat) : Bool :=
  if transaction.Class == some 1 then true
  else if (match predictions[index]? with
           | some prediction => modelVote prediction
           | none => false) then true
  else hasNegativeV1 transaction || hasLargeAmount transaction

/-- The two vote orders agree. -/
theorem modelVote_eq_isFlaggedAsFraud (p : Prediction) :
    modelVote p = isFlaggedAsFraud (some p) := by
  simp only [modelVote, isFlaggedAsFraud]
  cases hl : p.logistic == some 1 <;>
    cases hr : p.random_forest == some 1 <;>
      cases hx : p.xgboost == some 1 <;> simp [hl, hr, hx]

/-- A transaction with ground-truth label 1, harmless V1 and amount. -/
def txClass1 : Transaction := ⟨none, none, some 0, some 1, some 0⟩

/-- C6 counterexample: at index 0 a Prediction is available (all three
models vote 0), yet the table display status is `true` because the
`Class === 1` check precedes the prediction check — the display status
differs from the Prediction-based classification. -/
theorem display_fallback_counterexample :
    isFraudulent [predZero] txClass1 0 ≠ isFlaggedAsFraud (some predZero) := by
  decide

/-- C6 amended: when a Prediction is available at index i, the
history-table status is `Class == 1` OR the model vote (the V1/amount
fallbacks are indeed suppressed, but the ground-truth `Class` check takes
precedence over the prediction), and the alerts-panel status is
`Class == 1` OR the model vote OR the V1/amount fallbacks (a negative
vote falls through to the feature checks there). -/
theorem display_fallback_with_prediction (preds : List Prediction)
    (t : Transaction) (i : Nat) (p : Prediction)
    (h : preds[i]? = some p) :
    isFraudulent preds t i =
      ((t.Class == some 1) || isFlaggedAsFraud (some p)) ∧
    fraudAlertCheck preds t i =
      ((t.Class == some 1) || isFlaggedAsFraud (some p) ||
        (hasNegativeV1 t || hasLargeAmount t)) := by
  have hv := modelVote_eq_isFlaggedAsFraud p
  constructor
  · cases hc : (t.Class == some 1) <;>
      simp [isFraudulent, hc, h, hv]
  · cases hc : (t.Class == some 1) <;>
      cases hf : isFlaggedAsFraud (some p) <;>
        simp [fraudAlertCheck, hc, h, hv, hf]

/-- C6 witness for the amended claim: instantiated at the counterexample
configuration (all-zero prediction at index 0, transaction with Class 1). -/
theorem display_fallback_with_prediction_witness :
    isFraudulent [predZero] txClass1 0 =
      ((txClass1.Class == some 1) || isFlaggedAsFraud (some predZero)) ∧
    fraudAlertCheck [predZero] txClass1 0 =
      ((txClass1.Class == some 1) || isFlaggedAsFraud (some predZero) ||
        (hasNegativeV1 txClass1 || hasLargeAmount txClass1)) :=
  display_fallback_with_prediction [predZero] txClass1 0 predZero rfl

/-- Mean over the valid amounts:
`validAmounts.reduce((sum, amount) => sum + amount, 0) /
validAmounts.length`. -/
def meanOf (xs : List ℚ) : ℚ := xs.sum / xs.length

/-- Population variance over the valid amounts (the square of the
source's `stdDev`):
`validAmounts.reduce((sum, amount) => sum + Math.pow(amount - mean, 2), 0)
/ validAmounts.length`. -/
def varianceOf (xs : List ℚ) : ℚ :=
  (xs.map (fun amount => (amount - meanOf xs) ^ 2)).sum / xs.length

/-- `identifyAnomalies` from the realtime chart.  The source returns `[]`
for an empty input, all-false when no entry passes the `!isNaN` filter
(embedded here as `filterMap id` over `Option ℚ`, `none` standing for a
non-numeric entry), and otherwise flags
`amount > mean + 2 * Math.sqrt(variance)`.  Since `Math.sqrt` is
non-negative, that comparison holds exactly when `mean < x` and
`(x - mean)^2 > 4 * variance`, which is the ℚ-valued form computed here
(`sqrt_threshold_iff` below proves the equivalence with the `Real.sqrt`
form); a `NaN` entry compares false against the threshold. -/
def identifyAnomalies (amounts : List (Option ℚ)) : List Bool :=
  if amounts.length = 0 then []
  else if (amounts.filterMap id).length = 0 then
    amounts.map (fun _ => false)
  else
    amounts.map (fun amount =>
      match amount with
      | some x =>
          decide (meanOf (amounts.filterMap id) < x) &&
            decide (4 * varianceOf (amounts.filterMap id) <
              (x - meanOf (amounts.filterMap id)) ^ 2)
      | none => false)

/-- The population variance is non-negative. -/
theorem varianceOf_nonneg (xs : List ℚ) : 0 ≤ varianceOf xs := by
  apply div_nonneg
  · apply List.sum_nonneg
    intro q hq
    obtain ⟨a, _, rfl⟩ := List.mem_map.mp hq
    positivity
  · positivity

/-- For non-negative `v`, exceeding `m + 2 * sqrt v` is the same as lying
strictly above `m` with squared distance above `4 * v`. -/
theorem sqrt_threshold_iff (m x v : ℚ) (hv : 0 ≤ v) :
    (m < x ∧ 4 * v < (x - m) ^ 2) ↔ (m : ℝ) + 2 * Real.sqrt v < (x : ℝ) := by
  have hvr : (0:ℝ) ≤ (v:ℝ) := by exact_mod_cast hv
  constructor
  · rintro ⟨h1, h2⟩
    have hd : (0:ℝ) < (x:ℝ) - (m:ℝ) := by
      have hmx : (m:ℝ) < (x:ℝ) := by exact_mod_cast h1
      linarith
    have h2r : (4:ℝ) * (v:ℝ) < ((x:ℝ) - (m:ℝ)) ^ 2 := by exact_mod_cast h2
    have hs : Real.sqrt (v:ℝ) < ((x:ℝ) - (m:ℝ)) / 2 := by
      rw [Real.sqrt_lt' (by linarith)]
      nlinarith
    linarith
  · intro h
    have hs0 : (0:ℝ) ≤ Real.sqrt (v:ℝ) := Real.sqrt_nonneg _
    have hd : (0:ℝ) < (x:ℝ) - (m:ℝ) := by linarith
    have h1 : m < x := by
      have hmx : (m:ℝ) < (x:ℝ) := by linarith
      exact_mod_cast hmx
    have hs : Real.sqrt (v:ℝ) < ((x:ℝ) - (m:ℝ)) / 2 := by linarith
    rw [Real.sqrt_lt' (by linarith)] at hs
    have h2r : (4:ℝ) * (v:ℝ) < ((x:ℝ) - (m:ℝ)) ^ 2 := by nlinarith
    exact ⟨h1, by exact_mod_cast h2r⟩

/-- C7: when the valid (numeric) subset is non-empty, position i is
flagged iff it holds a numeric amount that strictly exceeds
`mean + 2 * (population standard deviation)` of the valid subset; when the
valid subset is empty (the whole list included), every flag is false. -/
theorem identifyAnomalies_spec :
    (∀ (amounts : List (Option ℚ)), amounts.filterMap id ≠ [] →
      ∀ i : Nat,
        ((identifyAnomalies amounts)[i]? = some true ↔
          ∃ x : ℚ, amounts[i]? = some (some x) ∧
            (meanOf (amounts.filterMap id) : ℝ) +
              2 * Real.sqrt (varianceOf (amounts.filterMap id)) <
                (x : ℝ))) ∧
    (∀ amounts : List (Option ℚ), amounts.filterMap id = [] →
      identifyAnomalies amounts = amounts.map (fun _ => false)) := by
  constructor
  · intro amounts hne i
    have hlen : ¬ amounts.length = 0 := by
      intro h0
      rw [List.length_eq_zero] at h0
      subst h0
      simp at hne
    have hvlen : ¬ (amounts.filterMap id).length = 0 := by
      intro h0
      exact hne (List.length_eq_zero.mp h0)
    have hva : 0 ≤ varianceOf (amounts.filterMap id) := varianceOf_nonneg _
    rw [identifyAnomalies, if_neg hlen, if_neg hvlen, List.getElem?_map]
    cases hai : amounts[i]? with
    | none => simp
    | some oa =>
      cases oa with
      | none => simp
      | some x =>
        simp only [Option.map_some', Option.some.injEq, Bool.and_eq_true,
          decide_eq_true_eq]
        constructor
        · intro h
          exact ⟨x, rfl,
            (sqrt_threshold_iff (meanOf (amounts.filterMap id)) x
              (varianceOf (amounts.filterMap id)) hva).mp h⟩
        · rintro ⟨x', hx', hP⟩
          obtain rfl : x = x' := by simpa using hx'
          exact (sqrt_threshold_iff (meanOf (amounts.filterMap id)) x
            (varianceOf (amounts.filterMap id)) hva).mpr hP
  · intro amounts h0
    cases amounts with
    | nil => rfl
    | cons a as =>
      rw [identifyAnomalies, if_neg (by simp), if_pos (by rw [h0]; rfl)]

/-- Nine zero amounts and one 100: mean 10, population variance 900,
threshold 10 + 2·30 = 70, so only the last position flags. -/
def anomalyAmounts : List (Option ℚ) :=
  [some 0, some 0, some 0, some 0, some 0, some 0, some 0, some 0, some 0,
   some 100]

/-- C7 witness: the characterization instantiated at index 9 of the
concrete list, and the degenerate all-non-numeric case. -/
theorem identifyAnomalies_spec_witness :
    ((identifyAnomalies anomalyAmounts)[9]? = some true ↔
      ∃ x : ℚ, anomalyAmounts[9]? = some (some x) ∧
        (meanOf (anomalyAmounts.filterMap id) : ℝ) +
          2 * Real.sqrt (varianceOf (anomalyAmounts.filterMap id)) <
            (x : ℝ)) ∧
    identifyAnomalies [(none : Option ℚ), none] =
      [(none : Option ℚ), none].map (fun _ => false) :=
  ⟨identifyAnomalies_spec.1 anomalyAmounts (by decide) 9,
   identifyAnomalies_spec.2 [none, none] rfl⟩
